import Mathlib

/-!
Shallow embedding of `addons/source-python/packages/source-python/core/command.py`:
the `_CoreCommandManager` sub-command handlers for the `sp` server command.

External collaborators (the `autodoc.SphinxProject` build capability, the
`paths` constants, the `core.dumps` function table, the logger sink, the
tick scheduler and the Python `float` builtin) are modelled as explicit
parameters: the project capability as an oracle record, the logger as a list
of emitted messages, external invocations as a call trace, and the on-disk
state as an association list from path to file content.
-/

namespace SPCore

/-- Python exceptions that the embedded handlers can raise or absorb. -/
inductive PyExc
  | valueError
  | ioError
  | indexError
deriving Repr, DecidableEq

/-- The observable on-disk state: an association list from path to content. -/
structure FileSys where
  files : List (String × String)
deriving Repr, DecidableEq

/-- Reading a file: first binding for the path, `none` when absent. -/
def readFile (fs : FileSys) (path : String) : Option String :=
  (fs.files.find? (fun pr => pr.1 == path)).map (fun pr => pr.2)

/-- Dict-like update of the first binding for a path, appending when absent. -/
def updateFiles : List (String × String) → String → String → List (String × String)
  | [], p, c => [(p, c)]
  | e :: rest, p, c => if e.1 = p then (p, c) :: rest else e :: updateFiles rest p c

/-- Writing a file (Python `open(path, 'w')` followed by a full write). -/
def writeFile (fs : FileSys) (path content : String) : FileSys :=
  ⟨updateFiles fs.files path content⟩

/-- Trace of invocations of capabilities external to this core. -/
inductive ExtCall
  | create (srcRoot outRoot author : String) (title ver : Option String)
  | generateFiles (srcRoot outRoot : String)
  | build (srcRoot outRoot : String)
  | dumpCall (fname arg : String)
  | delay (seconds : Rat) (cmd : String)
deriving Repr, DecidableEq

/-- Result of one handler invocation: logger messages in order of emission,
external capability calls in order, and the resulting on-disk state. -/
structure RunResult where
  log : List String
  calls : List ExtCall
  fs : FileSys
deriving Repr, DecidableEq

/-- Oracle for one `autodoc.SphinxProject(src, out)` instance: the observed
`project_exists()` probe, whether each capability raises, the on-disk effect
of a successful `create`/`generate_project_files`, and `project_source_dir`.
The external `build` writes only final artifacts outside the modelled
source-tree region, so it carries no modelled filesystem effect. -/
structure SphinxOracle where
  projectExists : Bool
  createRaises : Bool
  generateRaises : Bool
  buildRaises : Bool
  createFs : FileSys → FileSys
  generateFs : FileSys → FileSys
  sourceDir : String

/-- Environment of external observations: `namebase`s of
`CUSTOM_PACKAGES_PATH.listdir()`, `namebase`s of `PLUGIN_PATH.dirs()`, and
the project oracle keyed by the (source root, output root) pair. -/
structure Env where
  customEntries : List String
  pluginDirs : List String
  project : String → String → SphinxOracle

/-- Path constants from the external `paths` module (symbolic values). -/
def SP_PACKAGES_PATH : String := "packages/source-python"

def SP_DOCS_PATH : String := "docs/source-python"

def CUSTOM_PACKAGES_PATH : String := "packages/custom"

def CUSTOM_PACKAGES_DOCS_PATH : String := "docs/custom"

def PLUGIN_PATH : String := "plugins"

def PLUGIN_DOCS_PATH : String := "docs/plugins"

/-- `path / name` on path objects. -/
def joinPath (p s : String) : String := p ++ "/" ++ s

/-- `core.version.VERSION` (symbolic value of the external constant). -/
def VERSION : String := "VERSION"

/-- Worker for `pyReplace`; the fuel starts at the length of the scanned
list and each step consumes at least one character for a nonempty pattern. -/
def replaceAux (pat rep : List Char) : Nat → List Char → List Char
  | _, [] => []
  | 0, s => s
  | fuel + 1, c :: cs =>
    if pat.isPrefixOf (c :: cs) then
      rep ++ replaceAux pat rep fuel (List.drop pat.length (c :: cs))
    else
      c :: replaceAux pat rep fuel cs

/-- Python `s.replace(old, new)` for a nonempty `old`: leftmost,
non-overlapping replacement of every occurrence. -/
def pyReplace (s old new : String) : String :=
  ⟨replaceAux old.data new.data s.data.length s.data⟩

/-- Worker for `readlines`, accumulating the current line reversed. -/
def readlinesAux : List Char → List Char → List String
  | [], acc => if acc.isEmpty then [] else [⟨acc.reverse⟩]
  | c :: rest, acc =>
    if c = '\n' then ⟨acc.reverse ++ ['\n']⟩ :: readlinesAux rest []
    else readlinesAux rest (c :: acc)

/-- Python `f.readlines()`: split after each newline, keeping the newline;
a final fragment without a newline is kept as-is. -/
def readlines (s : String) : List String :=
  readlinesAux s.data []

/-- Concatenation of a list of strings (string-building loops). -/
def strJoin : List String → String
  | [] => ""
  | s :: rest => s ++ strJoin rest

/-- Characters Python `str.split()` treats as whitespace (ASCII range). -/
def pyIsSpace (c : Char) : Bool :=
  c = ' ' || c = '\t' || c = '\n' || c = '\r' || c = '\x0b' || c = '\x0c'

/-- Python `line.split(maxsplit=1)[0]`: the first whitespace-delimited word. -/
def firstWord (l : String) : String :=
  ⟨(l.data.dropWhile pyIsSpace).takeWhile (fun c => !(pyIsSpace c))⟩

/-- Python `s.startswith(p)` (character-list form). -/
def pyStartsWith (s p : String) : Bool :=
  p.data.isPrefixOf s.data

/-- Python `s.endswith(p)` (character-list form). -/
def pyEndsWith (s p : String) : Bool :=
  p.data.isSuffixOf s.data

/-- One line of the `conf.py` rewrite in `_build_source_python_docs`:
a line starting with `version` or `release` is replaced by
`<first-word> = \x27 <VERSION>\x27` plus a newline; other lines unchanged. -/
def rewriteLine (l : String) : String :=
  if pyStartsWith l "version" || pyStartsWith l "release" then
    firstWord l ++ " = \x27 " ++ VERSION ++ "\x27\n"
  else l

/-- The whole-content `conf.py` rewrite: `readlines`, map, write back. -/
def rewriteConf (content : String) : String :=
  strJoin ((readlines content).map rewriteLine)

/-- Whether `path` denotes a file directly inside `dir` matching `*.rst`
(Python `dir.files('*.rst')` membership, by path shape). -/
def isRstInDir (dir path : String) : Bool :=
  let pre := dir ++ "/"
  pre.data.isPrefixOf path.data &&
    (let name := path.data.drop pre.data.length
     !(name.contains '/') && ".rst".data.isSuffixOf name)

/-- Post-processing in `_generate_source_python_docs`: every `*.rst` file in
the project source dir has the literal `source-python.` removed. -/
def stripRst (dir : String) (fs : FileSys) : FileSys :=
  ⟨fs.files.map (fun pr =>
    if isRstInDir dir pr.1 then (pr.1, pyReplace pr.2 "source-python." "") else pr)⟩

/-- `_CoreCommandManager.is_source_python`. -/
def is_source_python (package : String) : Bool :=
  package == "source-python"

/-- `_CoreCommandManager.is_custom_package`. -/
def is_custom_package (env : Env) (package : String) : Bool :=
  env.customEntries.contains package

/-- `_CoreCommandManager.is_plugin`. -/
def is_plugin (env : Env) (package : String) : Bool :=
  env.pluginDirs.contains package

/-- `_CoreCommandManager._create_source_python_docs`. -/
def createSourcePythonDocs (o : SphinxOracle) (fs : FileSys) : Except PyExc RunResult :=
  if o.projectExists then
    .ok ⟨["Sphinx project already exists for Source.Python"], [], fs⟩
  else if o.createRaises then
    .ok ⟨["An occured while creating Sphinx project for Source.Python."],
      [.create SP_PACKAGES_PATH SP_DOCS_PATH "Source.Python Development Team"
        (some "Source.Python") (some VERSION)], fs⟩
  else
    .ok ⟨["Sphinx project has been created for Source.Python."],
      [.create SP_PACKAGES_PATH SP_DOCS_PATH "Source.Python Development Team"
        (some "Source.Python") (some VERSION)], o.createFs fs⟩

/-- `_CoreCommandManager._create_custom_package_docs`. -/
def createCustomPackageDocs (o : SphinxOracle) (package : String) (fs : FileSys) :
    Except PyExc RunResult :=
  if o.projectExists then
    .ok ⟨["Sphinx project already exists for custom package \"" ++ package ++ "\"."], [], fs⟩
  else if o.createRaises then
    .ok ⟨["An error occured while creating Sphinx project for custom package \""
        ++ package ++ "\"."],
      [.create (joinPath CUSTOM_PACKAGES_PATH package)
        (joinPath CUSTOM_PACKAGES_DOCS_PATH package) "Unknown" none none], fs⟩
  else
    .ok ⟨["Sphinx project has been created for custom package \"" ++ package ++ "\"."],
      [.create (joinPath CUSTOM_PACKAGES_PATH package)
        (joinPath CUSTOM_PACKAGES_DOCS_PATH package) "Unknown" none none], o.createFs fs⟩

/-- `_CoreCommandManager._create_plugin_docs`. -/
def createPluginDocs (o : SphinxOracle) (package : String) (fs : FileSys) :
    Except PyExc RunResult :=
  if o.projectExists then
    .ok ⟨["Sphinx project already exists for plugin \"" ++ package ++ "\"."], [], fs⟩
  else if o.createRaises then
    .ok ⟨["An error occured while creating Sphinx project for plugin \""
        ++ package ++ "\"."],
      [.create (joinPath PLUGIN_PATH package)
        (joinPath PLUGIN_DOCS_PATH package) "Unknown" none none], fs⟩
  else
    .ok ⟨["Sphinx project has been created for plugin \"" ++ package ++ "\"."],
      [.create (joinPath PLUGIN_PATH package)
        (joinPath PLUGIN_DOCS_PATH package) "Unknown" none none], o.createFs fs⟩

/-- `_CoreCommandManager._generate_source_python_docs`. -/
def generateSourcePythonDocs (o : SphinxOracle) (fs : FileSys) : Except PyExc RunResult :=
  if o.projectExists then
    if o.generateRaises then
      .ok ⟨["An error occured while generating project files for Source.Python"],
        [.generateFiles SP_PACKAGES_PATH SP_DOCS_PATH], fs⟩
    else
      .ok ⟨["Project files have been generated for Source.Python."],
        [.generateFiles SP_PACKAGES_PATH SP_DOCS_PATH],
        stripRst o.sourceDir (o.generateFs fs)⟩
  else
    .ok ⟨["Sphinx project does not exist for Source.Python."], [], fs⟩

/-- `_CoreCommandManager._generate_custom_package_docs`. -/
def generateCustomPackageDocs (o : SphinxOracle) (package : String) (fs : FileSys) :
    Except PyExc RunResult :=
  if o.projectExists then
    if o.generateRaises then
      .ok ⟨["An error occured while generating project files for custom package \""
          ++ package ++ "\"."],
        [.generateFiles (joinPath CUSTOM_PACKAGES_PATH package)
          (joinPath CUSTOM_PACKAGES_DOCS_PATH package)], fs⟩
    else
      .ok ⟨["Project files have been generated for custom package \"" ++ package ++ "\"."],
        [.generateFiles (joinPath CUSTOM_PACKAGES_PATH package)
          (joinPath CUSTOM_PACKAGES_DOCS_PATH package)], o.generateFs fs⟩
  else
    .ok ⟨["Sphinx project does not exist for custom package \"" ++ package ++ "\"."], [], fs⟩

/-- `_CoreCommandManager._generate_plugin_docs`. -/
def generatePluginDocs (o : SphinxOracle) (package : String) (fs : FileSys) :
    Except PyExc RunResult :=
  if o.projectExists then
    if o.generateRaises then
      .ok ⟨["An error occured while generating project files for plugin \""
          ++ package ++ "\"."],
        [.generateFiles (joinPath PLUGIN_PATH package)
          (joinPath PLUGIN_DOCS_PATH package)], fs⟩
    else
      .ok ⟨["Project files have been generated for plugin \"" ++ package ++ "\"."],
        [.generateFiles (joinPath PLUGIN_PATH package)
          (joinPath PLUGIN_DOCS_PATH package)], o.generateFs fs⟩
  else
    .ok ⟨["Sphinx project does not exist for plugin \"" ++ package ++ "\"."], [], fs⟩

/-- `_CoreCommandManager._build_source_python_docs`.  The `conf_file.open()`
call sits outside the `try` block, so a missing `conf.py` raises out of the
routine; the rewrite itself happens before `project.build()` is attempted. -/
def buildSourcePythonDocs (o : SphinxOracle) (fs : FileSys) : Except PyExc RunResult :=
  if o.projectExists then
    match readFile fs (joinPath o.sourceDir "conf.py") with
    | none => .error .ioError
    | some content =>
      let fs1 := writeFile fs (joinPath o.sourceDir "conf.py") (rewriteConf content)
      if o.buildRaises then
        .ok ⟨["An error occured while building project files for Source.Python."],
          [.build SP_PACKAGES_PATH SP_DOCS_PATH], fs1⟩
      else
        .ok ⟨["Project files have been built for Source.Python."],
          [.build SP_PACKAGES_PATH SP_DOCS_PATH], fs1⟩
  else
    .ok ⟨["Sphinx project does not exist for Source.Python."], [], fs⟩

/-- `_CoreCommandManager._build_custom_package_docs`. -/
def buildCustomPackageDocs (o : SphinxOracle) (package : String) (fs : FileSys) :
    Except PyExc RunResult :=
  if o.projectExists then
    if o.buildRaises then
      .ok ⟨["An error occured while building project files for custom package \""
          ++ package ++ "\"."],
        [.build (joinPath CUSTOM_PACKAGES_PATH package)
          (joinPath CUSTOM_PACKAGES_DOCS_PATH package)], fs⟩
    else
      .ok ⟨["Project files have been built for custom package \"" ++ package ++ "\"."],
        [.build (joinPath CUSTOM_PACKAGES_PATH package)
          (joinPath CUSTOM_PACKAGES_DOCS_PATH package)], fs⟩
  else
    .ok ⟨["Sphinx project does not exist for custom package \"" ++ package ++ "\"."], [], fs⟩

/-- `_CoreCommandManager._build_plugin_docs`. -/
def buildPluginDocs (o : SphinxOracle) (package : String) (fs : FileSys) :
    Except PyExc RunResult :=
  if o.projectExists then
    if o.buildRaises then
      .ok ⟨["An error occured while building project files for plugin \""
          ++ package ++ "\"."],
        [.build (joinPath PLUGIN_PATH package) (joinPath PLUGIN_DOCS_PATH package)], fs⟩
    else
      .ok ⟨["Project files have been built for plugin \"" ++ package ++ "\"."],
        [.build (joinPath PLUGIN_PATH package) (joinPath PLUGIN_DOCS_PATH package)], fs⟩
  else
    .ok ⟨["Sphinx project does not exist for plugin \"" ++ package ++ "\"."], [], fs⟩

/-- `_CoreCommandManager._create_sphinx_project`. -/
def createSphinxProject (env : Env) (package : String) (fs : FileSys) :
    Except PyExc RunResult :=
  if is_source_python package then
    createSourcePythonDocs (env.project SP_PACKAGES_PATH SP_DOCS_PATH) fs
  else if is_custom_package env package then
    createCustomPackageDocs
      (env.project (joinPath CUSTOM_PACKAGES_PATH package)
        (joinPath CUSTOM_PACKAGES_DOCS_PATH package)) package fs
  else if is_plugin env package then
    createPluginDocs
      (env.project (joinPath PLUGIN_PATH package)
        (joinPath PLUGIN_DOCS_PATH package)) package fs
  else
    .ok ⟨["\"" ++ package ++ "\" is not source-python, a custom package or a plugin."],
      [], fs⟩

/-- `_CoreCommandManager._generate_sphinx_project`. -/
def generateSphinxProject (env : Env) (package : String) (fs : FileSys) :
    Except PyExc RunResult :=
  if is_source_python package then
    generateSourcePythonDocs (env.project SP_PACKAGES_PATH SP_DOCS_PATH) fs
  else if is_custom_package env package then
    generateCustomPackageDocs
      (env.project (joinPath CUSTOM_PACKAGES_PATH package)
        (joinPath CUSTOM_PACKAGES_DOCS_PATH package)) package fs
  else if is_plugin env package then
    generatePluginDocs
      (env.project (joinPath PLUGIN_PATH package)
        (joinPath PLUGIN_DOCS_PATH package)) package fs
  else
    .ok ⟨["\"" ++ package ++ "\" is not source-python, a custom package or a plugin."],
      [], fs⟩

/-- `_CoreCommandManager._build_sphinx_project`. -/
def buildSphinxProject (env : Env) (package : String) (fs : FileSys) :
    Except PyExc RunResult :=
  if is_source_python package then
    buildSourcePythonDocs (env.project SP_PACKAGES_PATH SP_DOCS_PATH) fs
  else if is_custom_package env package then
    buildCustomPackageDocs
      (env.project (joinPath CUSTOM_PACKAGES_PATH package)
        (joinPath CUSTOM_PACKAGES_DOCS_PATH package)) package fs
  else if is_plugin env package then
    buildPluginDocs
      (env.project (joinPath PLUGIN_PATH package)
        (joinPath PLUGIN_DOCS_PATH package)) package fs
  else
    .ok ⟨["\"" ++ package ++ "\" is not source-python, a custom package or a plugin."],
      [], fs⟩

/-- `_CoreCommandManager.docs_handler`. -/
def docs_handler (env : Env) (action package : String) (fs : FileSys) :
    Except PyExc RunResult :=
  if action == "create" then createSphinxProject env package fs
  else if action == "generate" then generateSphinxProject env package fs
  else if action == "build" then buildSphinxProject env package fs
  else
    .ok ⟨["Invalid action: \"" ++ action
        ++ "\". Valid action are: create, generate and build"], [], fs⟩

/-- `_CoreCommandManager.delay_execution`: `float(args[0])` is called with
no surrounding `try`, so a non-numeric first token raises `ValueError` out
of the handler; an empty argument list raises `IndexError`.  The Python
`float` builtin is modelled by the conversion oracle `pf`. -/
def delay_execution (pf : String → Option Rat) (args : List String) (fs : FileSys) :
    Except PyExc RunResult :=
  match args with
  | [] => .error .indexError
  | a :: rest =>
    match pf a with
    | none => .error .valueError
    | some r => .ok ⟨[], [.delay r (String.intercalate " " rest ++ "\n")], fs⟩

/-- `_CoreCommandManager.dump_data`; `dumpsAll` is `core.dumps.__all__`. -/
def dump_data (dumpsAll : List String) (dumpType filename : String) (fs : FileSys) :
    Except PyExc RunResult :=
  if !(dumpsAll.contains ("dump_" ++ dumpType)) then
    .ok ⟨("Invalid dump_type \"" ++ dumpType ++ "\". The valid types are:") ::
      dumpsAll.map (fun d => "\t" ++ pyReplace d "dump_" ""), [], fs⟩
  else
    .ok ⟨[], [.dumpCall ("dump_" ++ dumpType) filename], fs⟩

/-- The `'=' * 61` separator rule used by the report framing. -/
def rule61 : String :=
  ⟨List.replicate 61 '='⟩

/-- A value stored in a `PluginInfo` instance: either a plain value or a
`ConVar` (whose name, help text and current string are formatted). -/
inductive InfoValue
  | plain (s : String)
  | convar (cvarName helpText current : String)
deriving Repr, DecidableEq

/-- The `isinstance(value, ConVar)` formatting branch of `print_plugins`. -/
def formatInfoValue : InfoValue → String
  | .plain s => s
  | .convar n h v => n ++ ":\n\t\t\t" ++ h ++ ": " ++ v

/-- The body of one `PluginInfo` item line (before its closing newline). -/
def itemCore (item : String) (v : InfoValue) : String :=
  "\t" ++ item ++ ":\n\t\t" ++ formatInfoValue v

/-- One `PluginInfo` item line: `'\t{0}:\n\t\t{1}\n'.format(item, value)`. -/
def itemLine (pr : String × InfoValue) : String :=
  itemCore pr.1 pr.2 ++ "\n"

/-- The loaded-plugin registry: names mapped to an optional `PluginInfo`,
itself an ordered list of item/value pairs. -/
abbrev Manager := List (String × Option (List (String × InfoValue)))

/-- `self.manager[plugin_name].info` for a name drawn from the keys. -/
def lookupInfo (mgr : Manager) (n : String) : Option (List (String × InfoValue)) :=
  (mgr.find? (fun pr => pr.1 == n)).bind (fun pr => pr.2)

/-- `sorted(self.manager)`: the plugin names in lexicographic order. -/
def sortedNames (mgr : Manager) : List String :=
  List.insertionSort (· ≤ ·) (mgr.map Prod.fst)

/-- The lines contributed by one plugin in the `list` report, without the
blank separator line that follows each plugin. -/
def pluginBlock (mgr : Manager) (n : String) : String :=
  match lookupInfo mgr n with
  | some info => n ++ ":\n" ++ strJoin (info.map itemLine)
  | none => n ++ "\n"

/-- `_CoreCommandManager.print_plugins`; `prefixStr` is the manager prefix
and `pluginsTitle` is `_plugin_strings['Plugins'].get_string()`, both from
external collaborators. -/
def print_plugins (prefixStr pluginsTitle : String) (mgr : Manager) : String :=
  let header := prefixStr ++ pluginsTitle ++ "\n" ++ rule61 ++ "\n\n"
  ((sortedNames mgr).foldl (fun m n => m ++ (pluginBlock mgr n ++ "\n")) header) ++ rule61

/-- One credits line: `'\t\t' + name + ' ' * (20 - len(name)) + role + '\n'`;
the natural-number subtraction matches Python, where a negative repeat
count produces the empty string. -/
def creditLine (name role : String) : String :=
  "\t\t" ++ name ++ String.mk (List.replicate (20 - name.length) ' ') ++ role ++ "\n"

/-- The lines contributed by one credits group, with its trailing blank. -/
def groupBlock (g : String × List (String × String)) : String :=
  "\t" ++ g.1 ++ ":\n" ++ strJoin (g.2.map (fun pr => creditLine pr.1 pr.2)) ++ "\n"

/-- `_CoreCommandManager.print_credits`; `groups` is the parsed content of
`credits.ini` (group name to ordered name/role pairs). -/
def print_credits (prefixStr creditsTitle : String)
    (groups : List (String × List (String × String))) : String :=
  let header := prefixStr ++ creditsTitle ++ "\n" ++ rule61 ++ "\n\n"
  (groups.foldl (fun m g => m ++ groupBlock g) header) ++ rule61 ++ "\n\n"

/-! Concrete test fixtures shared by the witness theorems. -/

/-- A project observed absent whose external `create` raises. -/
def oracleCreateFail : SphinxOracle := ⟨false, true, false, false, id, id, "src"⟩

/-- A project observed present whose external generate and build raise. -/
def oracleExternFail : SphinxOracle := ⟨true, false, true, true, id, id, "src"⟩

/-- A project observed absent with well-behaved capabilities. -/
def oracleAbsent : SphinxOracle := ⟨false, false, false, false, id, id, "src"⟩

/-- A project observed present with well-behaved capabilities. -/
def oracleExists : SphinxOracle := ⟨true, false, false, false, id, id, "src"⟩

/-- Roots holding the custom package `cp` and the plugin `pl`, every
project resolving to the given oracle. -/
def testEnv (o : SphinxOracle) : Env := ⟨["cp"], ["pl"], fun _ _ => o⟩

/-- An empty disk. -/
def fsEmpty : FileSys := ⟨[]⟩

/-- A disk holding only `src/conf.py` with content `v`. -/
def fsConf : FileSys := ⟨[("src/conf.py", "v")]⟩

/-- A sample registry with three no-op-style plugins loaded out of order. -/
def mgrSample : Manager :=
  [("zulu", none), ("alpha", some [("author", InfoValue.plain "bob")]), ("mu", none)]

/-! Helper lemmas about the string-building primitives. -/

theorem strJoin_append (l₁ l₂ : List String) :
    strJoin (l₁ ++ l₂) = strJoin l₁ ++ strJoin l₂ := by
  induction l₁ with
  | nil =>
    show strJoin l₂ = "" ++ strJoin l₂
    rw [String.empty_append]
  | cons a t ih =>
    show a ++ strJoin (t ++ l₂) = a ++ strJoin t ++ strJoin l₂
    rw [ih, String.append_assoc]

theorem foldl_append_strJoin {α : Type} (f : α → String) (l : List α) (init : String) :
    l.foldl (fun m x => m ++ f x) init = init ++ strJoin (l.map f) := by
  induction l generalizing init with
  | nil => simp [strJoin, String.append_empty]
  | cons a t ih =>
    show t.foldl (fun m x => m ++ f x) (init ++ f a) = init ++ strJoin (f a :: t.map f)
    rw [ih (init ++ f a)]
    show init ++ f a ++ strJoin (t.map f) = init ++ (f a ++ strJoin (t.map f))
    rw [String.append_assoc]

theorem string_eq_of_data {a b : String} (h : a.data = b.data) : a = b := by
  cases a; cases b; exact congrArg String.mk h

/-! Theorems settling the claims. -/

/-- C3: category classification tests CoreTree (name `source-python`)
first, then CustomPackage (entries of the custom-package root), then
Plugin (subdirectories of the plugin root), the first matching test
deciding the category for all three verbs; in particular a name present
under both the custom-package and the plugin root is handled as a
CustomPackage (the second conjunct places no constraint at all on the
plugin-root listing). -/
theorem docs_category_precedence (env : Env) (package : String) (fs : FileSys) :
    (docs_handler env "create" "source-python" fs
        = createSourcePythonDocs (env.project SP_PACKAGES_PATH SP_DOCS_PATH) fs
      ∧ docs_handler env "generate" "source-python" fs
        = generateSourcePythonDocs (env.project SP_PACKAGES_PATH SP_DOCS_PATH) fs
      ∧ docs_handler env "build" "source-python" fs
        = buildSourcePythonDocs (env.project SP_PACKAGES_PATH SP_DOCS_PATH) fs)
    ∧ (is_source_python package = false → is_custom_package env package = true →
        docs_handler env "create" package fs
          = createCustomPackageDocs
              (env.project (joinPath CUSTOM_PACKAGES_PATH package)
                (joinPath CUSTOM_PACKAGES_DOCS_PATH package)) package fs
        ∧ docs_handler env "generate" package fs
          = generateCustomPackageDocs
              (env.project (joinPath CUSTOM_PACKAGES_PATH package)
                (joinPath CUSTOM_PACKAGES_DOCS_PATH package)) package fs
        ∧ docs_handler env "build" package fs
          = buildCustomPackageDocs
              (env.project (joinPath CUSTOM_PACKAGES_PATH package)
                (joinPath CUSTOM_PACKAGES_DOCS_PATH package)) package fs)
    ∧ (is_source_python package = false → is_custom_package env package = false →
        is_plugin env package = true →
        docs_handler env "create" package fs
          = createPluginDocs
              (env.project (joinPath PLUGIN_PATH package)
                (joinPath PLUGIN_DOCS_PATH package)) package fs
        ∧ docs_handler env "generate" package fs
          = generatePluginDocs
              (env.project (joinPath PLUGIN_PATH package)
                (joinPath PLUGIN_DOCS_PATH package)) package fs
        ∧ docs_handler env "build" package fs
          = buildPluginDocs
              (env.project (joinPath PLUGIN_PATH package)
                (joinPath PLUGIN_DOCS_PATH package)) package fs) := by
  refine ⟨⟨rfl, rfl, rfl⟩, fun hs hc => ⟨?_, ?_, ?_⟩, fun hs hc hp => ⟨?_, ?_, ?_⟩⟩
  · show createSphinxProject env package fs = _
    unfold createSphinxProject; rw [hs, hc]; simp
  · show generateSphinxProject env package fs = _
    unfold generateSphinxProject; rw [hs, hc]; simp
  · show buildSphinxProject env package fs = _
    unfold buildSphinxProject; rw [hs, hc]; simp
  · show createSphinxProject env package fs = _
    unfold createSphinxProject; rw [hs, hc, hp]; simp
  · show generateSphinxProject env package fs = _
    unfold generateSphinxProject; rw [hs, hc, hp]; simp
  · show buildSphinxProject env package fs = _
    unfold buildSphinxProject; rw [hs, hc, hp]; simp

/-- C3 witness: a package name listed under both the custom-package root
and the plugin root is routed to the custom-package lifecycle for all
three verbs, and the reserved name routes to the CoreTree lifecycle. -/
theorem docs_category_precedence_witness :
    (docs_handler
        ⟨["both"], ["both"], fun _ _ => ⟨true, false, false, false, id, id, "s"⟩⟩
        "create" "both" ⟨[]⟩
      = createCustomPackageDocs ⟨true, false, false, false, id, id, "s"⟩ "both" ⟨[]⟩)
    ∧ docs_handler
        ⟨["both"], ["both"], fun _ _ => ⟨true, false, false, false, id, id, "s"⟩⟩
        "create" "source-python" ⟨[]⟩
      = createSourcePythonDocs ⟨true, false, false, false, id, id, "s"⟩ ⟨[]⟩ :=
  ⟨((docs_category_precedence
      ⟨["both"], ["both"], fun _ _ => ⟨true, false, false, false, id, id, "s"⟩⟩
      "both" ⟨[]⟩).2.1 (by decide) (by decide)).1,
   (docs_category_precedence
      ⟨["both"], ["both"], fun _ _ => ⟨true, false, false, false, id, id, "s"⟩⟩
      "irrelevant" ⟨[]⟩).1.1⟩

/-- C4: `docs_handler` with an action outside create/generate/build logs
one usage message listing the valid actions, performs no classification
(the result does not depend on the category environment at all) and no
lifecycle call; with a valid action whose package matches none of the
three categories it logs exactly one rejection diagnostic naming
source-python, custom package and plugin, calls no external capability
and leaves the disk unchanged. -/
theorem docs_handler_rejects_invalid_input (env : Env) (action package : String)
    (fs : FileSys) :
    (action ∉ (["create", "generate", "build"] : List String) →
      docs_handler env action package fs
        = .ok ⟨["Invalid action: \"" ++ action
            ++ "\". Valid action are: create, generate and build"], [], fs⟩)
    ∧ (is_source_python package = false → is_custom_package env package = false →
        is_plugin env package = false →
        ∀ a ∈ (["create", "generate", "build"] : List String),
          docs_handler env a package fs
            = .ok ⟨["\"" ++ package
                ++ "\" is not source-python, a custom package or a plugin."], [], fs⟩) := by
  constructor
  · intro h
    simp only [List.mem_cons, List.not_mem_nil, or_false, not_or] at h
    obtain ⟨h1, h2, h3⟩ := h
    simp [docs_handler, h1, h2, h3]
  · intro hs hc hp a ha
    simp only [List.mem_cons, List.not_mem_nil, or_false] at ha
    rcases ha with rfl | rfl | rfl <;>
      simp [docs_handler, createSphinxProject, generateSphinxProject,
        buildSphinxProject, hs, hc, hp]

/-- C4 witness: an unknown action and an unknown package, each at a
concrete input, produce exactly the usage and rejection diagnostics with
an empty call trace. -/
theorem docs_handler_rejects_invalid_input_witness :
    (docs_handler ⟨["cp"], ["pl"], fun _ _ => ⟨true, false, false, false, id, id, "s"⟩⟩
        "frobnicate" "cp" ⟨[]⟩
      = .ok ⟨["Invalid action: \"frobnicate\". Valid action are: create, generate and build"],
          [], ⟨[]⟩⟩)
    ∧ docs_handler ⟨["cp"], ["pl"], fun _ _ => ⟨true, false, false, false, id, id, "s"⟩⟩
        "build" "unknownpkg" ⟨[]⟩
      = .ok ⟨["\"unknownpkg\" is not source-python, a custom package or a plugin."], [], ⟨[]⟩⟩ :=
  ⟨(docs_handler_rejects_invalid_input
      ⟨["cp"], ["pl"], fun _ _ => ⟨true, false, false, false, id, id, "s"⟩⟩
      "frobnicate" "cp" ⟨[]⟩).1 (by decide),
   (docs_handler_rejects_invalid_input
      ⟨["cp"], ["pl"], fun _ _ => ⟨true, false, false, false, id, id, "s"⟩⟩
      "build" "unknownpkg" ⟨[]⟩).2 (by decide) (by decide) (by decide)
      "build" (by decide)⟩

/-- C1: for every lifecycle verb invoked through `docs_handler`, a raising
external project capability (`create`, `generate_project_files`, `build`)
is caught inside the lifecycle routine: the handler returns normally
(`Except.ok`, never an uncaught exception), the log holds exactly one
diagnostic whose text names the package (or Source.Python) and the failed
verb, and the failed capability invocation is the only external call. -/
theorem docs_capability_failures_absorbed (env : Env) (package : String) (fs : FileSys) :
    ((env.project SP_PACKAGES_PATH SP_DOCS_PATH).projectExists = false →
      (env.project SP_PACKAGES_PATH SP_DOCS_PATH).createRaises = true →
      docs_handler env "create" "source-python" fs
        = .ok ⟨["An occured while creating Sphinx project for Source.Python."],
            [.create SP_PACKAGES_PATH SP_DOCS_PATH "Source.Python Development Team"
              (some "Source.Python") (some VERSION)], fs⟩)
    ∧ (is_source_python package = false → is_custom_package env package = true →
        (env.project (joinPath CUSTOM_PACKAGES_PATH package)
          (joinPath CUSTOM_PACKAGES_DOCS_PATH package)).projectExists = false →
        (env.project (joinPath CUSTOM_PACKAGES_PATH package)
          (joinPath CUSTOM_PACKAGES_DOCS_PATH package)).createRaises = true →
        docs_handler env "create" package fs
          = .ok ⟨["An error occured while creating Sphinx project for custom package \""
                ++ package ++ "\"."],
              [.create (joinPath CUSTOM_PACKAGES_PATH package)
                (joinPath CUSTOM_PACKAGES_DOCS_PATH package) "Unknown" none none], fs⟩)
    ∧ (is_source_python package = false → is_custom_package env package = false →
        is_plugin env package = true →
        (env.project (joinPath PLUGIN_PATH package)
          (joinPath PLUGIN_DOCS_PATH package)).projectExists = false →
        (env.project (joinPath PLUGIN_PATH package)
          (joinPath PLUGIN_DOCS_PATH package)).createRaises = true →
        docs_handler env "create" package fs
          = .ok ⟨["An error occured while creating Sphinx project for plugin \""
                ++ package ++ "\"."],
              [.create (joinPath PLUGIN_PATH package)
                (joinPath PLUGIN_DOCS_PATH package) "Unknown" none none], fs⟩)
    ∧ ((env.project SP_PACKAGES_PATH SP_DOCS_PATH).projectExists = true →
        (env.project SP_PACKAGES_PATH SP_DOCS_PATH).generateRaises = true →
        docs_handler env "generate" "source-python" fs
          = .ok ⟨["An error occured while generating project files for Source.Python"],
              [.generateFiles SP_PACKAGES_PATH SP_DOCS_PATH], fs⟩)
    ∧ (is_source_python package = false → is_custom_package env package = true →
        (env.project (joinPath CUSTOM_PACKAGES_PATH package)
          (joinPath CUSTOM_PACKAGES_DOCS_PATH package)).projectExists = true →
        (env.project (joinPath CUSTOM_PACKAGES_PATH package)
          (joinPath CUSTOM_PACKAGES_DOCS_PATH package)).generateRaises = true →
        docs_handler env "generate" package fs
          = .ok ⟨["An error occured while generating project files for custom package \""
                ++ package ++ "\"."],
              [.generateFiles (joinPath CUSTOM_PACKAGES_PATH package)
                (joinPath CUSTOM_PACKAGES_DOCS_PATH package)], fs⟩)
    ∧ (is_source_python package = false → is_custom_package env package = false →
        is_plugin env package = true →
        (env.project (joinPath PLUGIN_PATH package)
          (joinPath PLUGIN_DOCS_PATH package)).projectExists = true →
        (env.project (joinPath PLUGIN_PATH package)
          (joinPath PLUGIN_DOCS_PATH package)).generateRaises = true →
        docs_handler env "generate" package fs
          = .ok ⟨["An error occured while generating project files for plugin \""
                ++ package ++ "\"."],
              [.generateFiles (joinPath PLUGIN_PATH package)
                (joinPath PLUGIN_DOCS_PATH package)], fs⟩)
    ∧ ((env.project SP_PACKAGES_PATH SP_DOCS_PATH).projectExists = true →
        (env.project SP_PACKAGES_PATH SP_DOCS_PATH).buildRaises = true →
        ∀ content,
          readFile fs (joinPath (env.project SP_PACKAGES_PATH SP_DOCS_PATH).sourceDir
            "conf.py") = some content →
          docs_handler env "build" "source-python" fs
            = .ok ⟨["An error occured while building project files for Source.Python."],
                [.build SP_PACKAGES_PATH SP_DOCS_PATH],
                writeFile fs
                  (joinPath (env.project SP_PACKAGES_PATH SP_DOCS_PATH).sourceDir "conf.py")
                  (rewriteConf content)⟩)
    ∧ (is_source_python package = false → is_custom_package env package = true →
        (env.project (joinPath CUSTOM_PACKAGES_PATH package)
          (joinPath CUSTOM_PACKAGES_DOCS_PATH package)).projectExists = true →
        (env.project (joinPath CUSTOM_PACKAGES_PATH package)
          (joinPath CUSTOM_PACKAGES_DOCS_PATH package)).buildRaises = true →
        docs_handler env "build" package fs
          = .ok ⟨["An error occured while building project files for custom package \""
                ++ package ++ "\"."],
              [.build (joinPath CUSTOM_PACKAGES_PATH package)
                (joinPath CUSTOM_PACKAGES_DOCS_PATH package)], fs⟩)
    ∧ (is_source_python package = false → is_custom_package env package = false →
        is_plugin env package = true →
        (env.project (joinPath PLUGIN_PATH package)
          (joinPath PLUGIN_DOCS_PATH package)).projectExists = true →
        (env.project (joinPath PLUGIN_PATH package)
          (joinPath PLUGIN_DOCS_PATH package)).buildRaises = true →
        docs_handler env "build" package fs
          = .ok ⟨["An error occured while building project files for plugin \""
                ++ package ++ "\"."],
              [.build (joinPath PLUGIN_PATH package)
                (joinPath PLUGIN_DOCS_PATH package)], fs⟩) := by
  refine ⟨?_, ?_, ?_, ?_, ?_, ?_, ?_, ?_, ?_⟩
  · intro h1 h2
    show createSourcePythonDocs (env.project SP_PACKAGES_PATH SP_DOCS_PATH) fs = _
    unfold createSourcePythonDocs; rw [h1, h2]; simp
  · intro hs hc h1 h2
    show createSphinxProject env package fs = _
    unfold createSphinxProject createCustomPackageDocs; rw [hs, hc, h1, h2]; simp
  · intro hs hc hp h1 h2
    show createSphinxProject env package fs = _
    unfold createSphinxProject createPluginDocs; rw [hs, hc, hp, h1, h2]; simp
  · intro h1 h2
    show generateSourcePythonDocs (env.project SP_PACKAGES_PATH SP_DOCS_PATH) fs = _
    unfold generateSourcePythonDocs; rw [h1, h2]; simp
  · intro hs hc h1 h2
    show generateSphinxProject env package fs = _
    unfold generateSphinxProject generateCustomPackageDocs; rw [hs, hc, h1, h2]; simp
  · intro hs hc hp h1 h2
    show generateSphinxProject env package fs = _
    unfold generateSphinxProject generatePluginDocs; rw [hs, hc, hp, h1, h2]; simp
  · intro h1 h2 content hconf
    show buildSourcePythonDocs (env.project SP_PACKAGES_PATH SP_DOCS_PATH) fs = _
    unfold buildSourcePythonDocs; rw [h1, hconf, h2]; simp
  · intro hs hc h1 h2
    show buildSphinxProject env package fs = _
    unfold buildSphinxProject buildCustomPackageDocs; rw [hs, hc, h1, h2]; simp
  · intro hs hc hp h1 h2
    show buildSphinxProject env package fs = _
    unfold buildSphinxProject buildPluginDocs; rw [hs, hc, hp, h1, h2]; simp


/-- C1 witness: each of the nine verb-and-category combinations, run at a
concrete input whose external capability raises, returns normally with
exactly the expected single diagnostic and single capability call. -/
theorem docs_capability_failures_absorbed_witness :
    (docs_handler (testEnv oracleCreateFail) "create" "source-python" fsEmpty
      = .ok ⟨["An occured while creating Sphinx project for Source.Python."],
          [.create SP_PACKAGES_PATH SP_DOCS_PATH "Source.Python Development Team"
            (some "Source.Python") (some VERSION)], fsEmpty⟩)
    ∧ (docs_handler (testEnv oracleCreateFail) "create" "cp" fsEmpty
      = .ok ⟨["An error occured while creating Sphinx project for custom package \"cp\"."],
          [.create (joinPath CUSTOM_PACKAGES_PATH "cp")
            (joinPath CUSTOM_PACKAGES_DOCS_PATH "cp") "Unknown" none none], fsEmpty⟩)
    ∧ (docs_handler (testEnv oracleCreateFail) "create" "pl" fsEmpty
      = .ok ⟨["An error occured while creating Sphinx project for plugin \"pl\"."],
          [.create (joinPath PLUGIN_PATH "pl")
            (joinPath PLUGIN_DOCS_PATH "pl") "Unknown" none none], fsEmpty⟩)
    ∧ (docs_handler (testEnv oracleExternFail) "generate" "source-python" fsEmpty
      = .ok ⟨["An error occured while generating project files for Source.Python"],
          [.generateFiles SP_PACKAGES_PATH SP_DOCS_PATH], fsEmpty⟩)
    ∧ (docs_handler (testEnv oracleExternFail) "generate" "cp" fsEmpty
      = .ok ⟨["An error occured while generating project files for custom package \"cp\"."],
          [.generateFiles (joinPath CUSTOM_PACKAGES_PATH "cp")
            (joinPath CUSTOM_PACKAGES_DOCS_PATH "cp")], fsEmpty⟩)
    ∧ (docs_handler (testEnv oracleExternFail) "generate" "pl" fsEmpty
      = .ok ⟨["An error occured while generating project files for plugin \"pl\"."],
          [.generateFiles (joinPath PLUGIN_PATH "pl") (joinPath PLUGIN_DOCS_PATH "pl")], fsEmpty⟩)
    ∧ (docs_handler (testEnv oracleExternFail) "build" "source-python" fsConf
      = .ok ⟨["An error occured while building project files for Source.Python."],
          [.build SP_PACKAGES_PATH SP_DOCS_PATH],
          writeFile fsConf (joinPath "src" "conf.py") (rewriteConf "v")⟩)
    ∧ (docs_handler (testEnv oracleExternFail) "build" "cp" fsEmpty
      = .ok ⟨["An error occured while building project files for custom package \"cp\"."],
          [.build (joinPath CUSTOM_PACKAGES_PATH "cp")
            (joinPath CUSTOM_PACKAGES_DOCS_PATH "cp")], fsEmpty⟩)
    ∧ (docs_handler (testEnv oracleExternFail) "build" "pl" fsEmpty
      = .ok ⟨["An error occured while building project files for plugin \"pl\"."],
          [.build (joinPath PLUGIN_PATH "pl") (joinPath PLUGIN_DOCS_PATH "pl")], fsEmpty⟩) :=
  ⟨(docs_capability_failures_absorbed (testEnv oracleCreateFail) "cp" fsEmpty).1
      (by decide) (by decide),
   (docs_capability_failures_absorbed (testEnv oracleCreateFail) "cp" fsEmpty).2.1
      (by decide) (by decide) (by decide) (by decide),
   (docs_capability_failures_absorbed (testEnv oracleCreateFail) "pl" fsEmpty).2.2.1
      (by decide) (by decide) (by decide) (by decide) (by decide),
   (docs_capability_failures_absorbed (testEnv oracleExternFail) "cp" fsEmpty).2.2.2.1
      (by decide) (by decide),
   (docs_capability_failures_absorbed (testEnv oracleExternFail) "cp" fsEmpty).2.2.2.2.1
      (by decide) (by decide) (by decide) (by decide),
   (docs_capability_failures_absorbed (testEnv oracleExternFail) "pl" fsEmpty).2.2.2.2.2.1
      (by decide) (by decide) (by decide) (by decide) (by decide),
   (docs_capability_failures_absorbed (testEnv oracleExternFail) "cp" fsConf).2.2.2.2.2.2.1
      (by decide) (by decide) "v" (by decide),
   (docs_capability_failures_absorbed (testEnv oracleExternFail) "cp" fsEmpty).2.2.2.2.2.2.2.1
      (by decide) (by decide) (by decide) (by decide),
   (docs_capability_failures_absorbed (testEnv oracleExternFail) "pl" fsEmpty).2.2.2.2.2.2.2.2
      (by decide) (by decide) (by decide) (by decide) (by decide)⟩


/-- C2: for every package in every category, `create` on an
already-existing project logs the `already exists` report, makes no
external call and leaves the disk unchanged; `generate` and `build` on an
absent project log the `does not exist` report, make no external call and
leave the disk unchanged. -/
theorem docs_lifecycle_noop_transitions (env : Env) (package : String) (fs : FileSys) :
    ((env.project SP_PACKAGES_PATH SP_DOCS_PATH).projectExists = true →
      docs_handler env "create" "source-python" fs
        = .ok ⟨["Sphinx project already exists for Source.Python"], [], fs⟩)
    ∧ (is_source_python package = false → is_custom_package env package = true →
        (env.project (joinPath CUSTOM_PACKAGES_PATH package)
          (joinPath CUSTOM_PACKAGES_DOCS_PATH package)).projectExists = true →
        docs_handler env "create" package fs
          = .ok ⟨["Sphinx project already exists for custom package \"" ++ package ++ "\"."],
              [], fs⟩)
    ∧ (is_source_python package = false → is_custom_package env package = false →
        is_plugin env package = true →
        (env.project (joinPath PLUGIN_PATH package)
          (joinPath PLUGIN_DOCS_PATH package)).projectExists = true →
        docs_handler env "create" package fs
          = .ok ⟨["Sphinx project already exists for plugin \"" ++ package ++ "\"."], [], fs⟩)
    ∧ ((env.project SP_PACKAGES_PATH SP_DOCS_PATH).projectExists = false →
        docs_handler env "generate" "source-python" fs
          = .ok ⟨["Sphinx project does not exist for Source.Python."], [], fs⟩)
    ∧ (is_source_python package = false → is_custom_package env package = true →
        (env.project (joinPath CUSTOM_PACKAGES_PATH package)
          (joinPath CUSTOM_PACKAGES_DOCS_PATH package)).projectExists = false →
        docs_handler env "generate" package fs
          = .ok ⟨["Sphinx project does not exist for custom package \"" ++ package ++ "\"."],
              [], fs⟩)
    ∧ (is_source_python package = false → is_custom_package env package = false →
        is_plugin env package = true →
        (env.project (joinPath PLUGIN_PATH package)
          (joinPath PLUGIN_DOCS_PATH package)).projectExists = false →
        docs_handler env "generate" package fs
          = .ok ⟨["Sphinx project does not exist for plugin \"" ++ package ++ "\"."], [], fs⟩)
    ∧ ((env.project SP_PACKAGES_PATH SP_DOCS_PATH).projectExists = false →
        docs_handler env "build" "source-python" fs
          = .ok ⟨["Sphinx project does not exist for Source.Python."], [], fs⟩)
    ∧ (is_source_python package = false → is_custom_package env package = true →
        (env.project (joinPath CUSTOM_PACKAGES_PATH package)
          (joinPath CUSTOM_PACKAGES_DOCS_PATH package)).projectExists = false →
        docs_handler env "build" package fs
          = .ok ⟨["Sphinx project does not exist for custom package \"" ++ package ++ "\"."],
              [], fs⟩)
    ∧ (is_source_python package = false → is_custom_package env package = false →
        is_plugin env package = true →
        (env.project (joinPath PLUGIN_PATH package)
          (joinPath PLUGIN_DOCS_PATH package)).projectExists = false →
        docs_handler env "build" package fs
          = .ok ⟨["Sphinx project does not exist for plugin \"" ++ package ++ "\"."], [], fs⟩) := by
  refine ⟨?_, ?_, ?_, ?_, ?_, ?_, ?_, ?_, ?_⟩
  · intro h1
    show createSourcePythonDocs (env.project SP_PACKAGES_PATH SP_DOCS_PATH) fs = _
    unfold createSourcePythonDocs; rw [h1]; simp
  · intro hs hc h1
    show createSphinxProject env package fs = _
    unfold createSphinxProject createCustomPackageDocs; rw [hs, hc, h1]; simp
  · intro hs hc hp h1
    show createSphinxProject env package fs = _
    unfold createSphinxProject createPluginDocs; rw [hs, hc, hp, h1]; simp
  · intro h1
    show generateSourcePythonDocs (env.project SP_PACKAGES_PATH SP_DOCS_PATH) fs = _
    unfold generateSourcePythonDocs; rw [h1]; simp
  · intro hs hc h1
    show generateSphinxProject env package fs = _
    unfold generateSphinxProject generateCustomPackageDocs; rw [hs, hc, h1]; simp
  · intro hs hc hp h1
    show generateSphinxProject env package fs = _
    unfold generateSphinxProject generatePluginDocs; rw [hs, hc, hp, h1]; simp
  · intro h1
    show buildSourcePythonDocs (env.project SP_PACKAGES_PATH SP_DOCS_PATH) fs = _
    unfold buildSourcePythonDocs; rw [h1]; simp
  · intro hs hc h1
    show buildSphinxProject env package fs = _
    unfold buildSphinxProject buildCustomPackageDocs; rw [hs, hc, h1]; simp
  · intro hs hc hp h1
    show buildSphinxProject env package fs = _
    unfold buildSphinxProject buildPluginDocs; rw [hs, hc, hp, h1]; simp

/-- C2 witness: the nine no-op transitions at concrete inputs, each
reporting and changing nothing. -/
theorem docs_lifecycle_noop_transitions_witness :
    (docs_handler (testEnv oracleExists) "create" "source-python" fsEmpty
      = .ok ⟨["Sphinx project already exists for Source.Python"], [], fsEmpty⟩)
    ∧ (docs_handler (testEnv oracleExists) "create" "cp" fsEmpty
      = .ok ⟨["Sphinx project already exists for custom package \"cp\"."], [], fsEmpty⟩)
    ∧ (docs_handler (testEnv oracleExists) "create" "pl" fsEmpty
      = .ok ⟨["Sphinx project already exists for plugin \"pl\"."], [], fsEmpty⟩)
    ∧ (docs_handler (testEnv oracleAbsent) "generate" "source-python" fsEmpty
      = .ok ⟨["Sphinx project does not exist for Source.Python."], [], fsEmpty⟩)
    ∧ (docs_handler (testEnv oracleAbsent) "generate" "cp" fsEmpty
      = .ok ⟨["Sphinx project does not exist for custom package \"cp\"."], [], fsEmpty⟩)
    ∧ (docs_handler (testEnv oracleAbsent) "generate" "pl" fsEmpty
      = .ok ⟨["Sphinx project does not exist for plugin \"pl\"."], [], fsEmpty⟩)
    ∧ (docs_handler (testEnv oracleAbsent) "build" "source-python" fsEmpty
      = .ok ⟨["Sphinx project does not exist for Source.Python."], [], fsEmpty⟩)
    ∧ (docs_handler (testEnv oracleAbsent) "build" "cp" fsEmpty
      = .ok ⟨["Sphinx project does not exist for custom package \"cp\"."], [], fsEmpty⟩)
    ∧ (docs_handler (testEnv oracleAbsent) "build" "pl" fsEmpty
      = .ok ⟨["Sphinx project does not exist for plugin \"pl\"."], [], fsEmpty⟩) :=
  ⟨(docs_lifecycle_noop_transitions (testEnv oracleExists) "cp" fsEmpty).1 (by decide),
   (docs_lifecycle_noop_transitions (testEnv oracleExists) "cp" fsEmpty).2.1
      (by decide) (by decide) (by decide),
   (docs_lifecycle_noop_transitions (testEnv oracleExists) "pl" fsEmpty).2.2.1
      (by decide) (by decide) (by decide) (by decide),
   (docs_lifecycle_noop_transitions (testEnv oracleAbsent) "cp" fsEmpty).2.2.2.1 (by decide),
   (docs_lifecycle_noop_transitions (testEnv oracleAbsent) "cp" fsEmpty).2.2.2.2.1
      (by decide) (by decide) (by decide),
   (docs_lifecycle_noop_transitions (testEnv oracleAbsent) "pl" fsEmpty).2.2.2.2.2.1
      (by decide) (by decide) (by decide) (by decide),
   (docs_lifecycle_noop_transitions (testEnv oracleAbsent) "cp" fsEmpty).2.2.2.2.2.2.1
      (by decide),
   (docs_lifecycle_noop_transitions (testEnv oracleAbsent) "cp" fsEmpty).2.2.2.2.2.2.2.1
      (by decide) (by decide) (by decide),
   (docs_lifecycle_noop_transitions (testEnv oracleAbsent) "pl" fsEmpty).2.2.2.2.2.2.2.2
      (by decide) (by decide) (by decide) (by decide)⟩


/-- C5: a successful `generate` for the CoreTree category rewrites every
`*.rst` file directly in the project source directory, replacing its
content by the generated content with every occurrence of the literal
`source-python.` removed (`pyReplace` with empty replacement), logs the
success confirmation, and this post-processing is absent from the custom
package and plugin generate paths, whose disk state stays exactly what the
external capability produced. -/
theorem generate_core_strips_literal (env : Env) (package : String) (fs : FileSys) :
    ((env.project SP_PACKAGES_PATH SP_DOCS_PATH).projectExists = true →
      (env.project SP_PACKAGES_PATH SP_DOCS_PATH).generateRaises = false →
      docs_handler env "generate" "source-python" fs
        = .ok ⟨["Project files have been generated for Source.Python."],
            [.generateFiles SP_PACKAGES_PATH SP_DOCS_PATH],
            stripRst (env.project SP_PACKAGES_PATH SP_DOCS_PATH).sourceDir
              ((env.project SP_PACKAGES_PATH SP_DOCS_PATH).generateFs fs)⟩)
    ∧ (∀ dir g, (stripRst dir g).files
        = g.files.map (fun pr =>
            if isRstInDir dir pr.1 then (pr.1, pyReplace pr.2 "source-python." "") else pr))
    ∧ (is_source_python package = false → is_custom_package env package = true →
        (env.project (joinPath CUSTOM_PACKAGES_PATH package)
          (joinPath CUSTOM_PACKAGES_DOCS_PATH package)).projectExists = true →
        (env.project (joinPath CUSTOM_PACKAGES_PATH package)
          (joinPath CUSTOM_PACKAGES_DOCS_PATH package)).generateRaises = false →
        docs_handler env "generate" package fs
          = .ok ⟨["Project files have been generated for custom package \""
                ++ package ++ "\"."],
              [.generateFiles (joinPath CUSTOM_PACKAGES_PATH package)
                (joinPath CUSTOM_PACKAGES_DOCS_PATH package)],
              (env.project (joinPath CUSTOM_PACKAGES_PATH package)
                (joinPath CUSTOM_PACKAGES_DOCS_PATH package)).generateFs fs⟩)
    ∧ (is_source_python package = false → is_custom_package env package = false →
        is_plugin env package = true →
        (env.project (joinPath PLUGIN_PATH package)
          (joinPath PLUGIN_DOCS_PATH package)).projectExists = true →
        (env.project (joinPath PLUGIN_PATH package)
          (joinPath PLUGIN_DOCS_PATH package)).generateRaises = false →
        docs_handler env "generate" package fs
          = .ok ⟨["Project files have been generated for plugin \"" ++ package ++ "\"."],
              [.generateFiles (joinPath PLUGIN_PATH package)
                (joinPath PLUGIN_DOCS_PATH package)],
              (env.project (joinPath PLUGIN_PATH package)
                (joinPath PLUGIN_DOCS_PATH package)).generateFs fs⟩) := by
  refine ⟨?_, fun dir g => rfl, ?_, ?_⟩
  · intro h1 h2
    show generateSourcePythonDocs (env.project SP_PACKAGES_PATH SP_DOCS_PATH) fs = _
    unfold generateSourcePythonDocs; rw [h1, h2]; simp
  · intro hs hc h1 h2
    show generateSphinxProject env package fs = _
    unfold generateSphinxProject generateCustomPackageDocs; rw [hs, hc, h1, h2]; simp
  · intro hs hc hp h1 h2
    show generateSphinxProject env package fs = _
    unfold generateSphinxProject generatePluginDocs; rw [hs, hc, hp, h1, h2]; simp

/-- C5 witness: a successful CoreTree generate on a disk produced by the
external capability holding one top-level `.rst` file, one nested `.rst`
file and one `.txt` file rewrites exactly the top-level `.rst` file. -/
theorem generate_core_strips_literal_witness :
    docs_handler
        ⟨["cp"], ["pl"], fun _ _ =>
          ⟨true, false, false, false, id,
            fun _ => ⟨[("src/core.rst", "source-python.core doc"),
              ("src/sub/deep.rst", "source-python.deep"),
              ("src/notes.txt", "source-python.notes")]⟩, "src"⟩⟩
        "generate" "source-python" fsEmpty
      = .ok ⟨["Project files have been generated for Source.Python."],
          [.generateFiles SP_PACKAGES_PATH SP_DOCS_PATH],
          stripRst "src" ⟨[("src/core.rst", "source-python.core doc"),
            ("src/sub/deep.rst", "source-python.deep"),
            ("src/notes.txt", "source-python.notes")]⟩⟩
    ∧ stripRst "src" ⟨[("src/core.rst", "source-python.core doc"),
        ("src/sub/deep.rst", "source-python.deep"),
        ("src/notes.txt", "source-python.notes")]⟩
      = ⟨[("src/core.rst", "core doc"),
        ("src/sub/deep.rst", "source-python.deep"),
        ("src/notes.txt", "source-python.notes")]⟩ :=
  ⟨(generate_core_strips_literal
      ⟨["cp"], ["pl"], fun _ _ =>
        ⟨true, false, false, false, id,
          fun _ => ⟨[("src/core.rst", "source-python.core doc"),
            ("src/sub/deep.rst", "source-python.deep"),
            ("src/notes.txt", "source-python.notes")]⟩, "src"⟩⟩
      "cp" fsEmpty).1 (by decide) (by decide),
   by decide⟩

/-- C6: `build` for the CoreTree category on an existing project rewrites
`conf.py` in the project source directory: the new content maps each
`readlines` line through `rewriteLine`, which replaces every line starting
with `version` or `release` by `<first word> = \x27 <VERSION>\x27` plus a
newline and returns every other line unchanged; the rewritten file is in
the resulting disk state both when the external build succeeds and when it
raises, so no rollback happens. -/
theorem build_core_rewrites_conf (env : Env) (fs : FileSys) (content : String) :
    ((env.project SP_PACKAGES_PATH SP_DOCS_PATH).projectExists = true →
      readFile fs (joinPath (env.project SP_PACKAGES_PATH SP_DOCS_PATH).sourceDir
        "conf.py") = some content →
      ((env.project SP_PACKAGES_PATH SP_DOCS_PATH).buildRaises = true →
        docs_handler env "build" "source-python" fs
          = .ok ⟨["An error occured while building project files for Source.Python."],
              [.build SP_PACKAGES_PATH SP_DOCS_PATH],
              writeFile fs
                (joinPath (env.project SP_PACKAGES_PATH SP_DOCS_PATH).sourceDir "conf.py")
                (rewriteConf content)⟩)
      ∧ ((env.project SP_PACKAGES_PATH SP_DOCS_PATH).buildRaises = false →
        docs_handler env "build" "source-python" fs
          = .ok ⟨["Project files have been built for Source.Python."],
              [.build SP_PACKAGES_PATH SP_DOCS_PATH],
              writeFile fs
                (joinPath (env.project SP_PACKAGES_PATH SP_DOCS_PATH).sourceDir "conf.py")
                (rewriteConf content)⟩))
    ∧ rewriteConf content = strJoin ((readlines content).map rewriteLine)
    ∧ (∀ l, (pyStartsWith l "version" || pyStartsWith l "release") = true →
        rewriteLine l = firstWord l ++ " = \x27 " ++ VERSION ++ "\x27\n")
    ∧ (∀ l, (pyStartsWith l "version" || pyStartsWith l "release") = false →
        rewriteLine l = l) := by
  refine ⟨fun h1 hconf => ⟨?_, ?_⟩, rfl, fun l hl => ?_, fun l hl => ?_⟩
  · intro h2
    show buildSourcePythonDocs (env.project SP_PACKAGES_PATH SP_DOCS_PATH) fs = _
    unfold buildSourcePythonDocs; rw [h1, hconf, h2]; simp
  · intro h2
    show buildSourcePythonDocs (env.project SP_PACKAGES_PATH SP_DOCS_PATH) fs = _
    unfold buildSourcePythonDocs; rw [h1, hconf, h2]; simp
  · unfold rewriteLine; rw [hl]; simp
  · unfold rewriteLine; rw [hl]; simp

/-- C6 witness: on a concrete `conf.py`, both the raising and the
succeeding build leave the rewritten file on disk, and the rewrite touches
exactly the `version`/`release` lines. -/
theorem build_core_rewrites_conf_witness :
    (docs_handler (testEnv oracleExternFail) "build" "source-python"
        ⟨[("src/conf.py", "title = x\nversion = \x270.1\x27\nrelease = \x270.1.2\x27\nend\n")]⟩
      = .ok ⟨["An error occured while building project files for Source.Python."],
          [.build SP_PACKAGES_PATH SP_DOCS_PATH],
          writeFile ⟨[("src/conf.py",
              "title = x\nversion = \x270.1\x27\nrelease = \x270.1.2\x27\nend\n")]⟩
            (joinPath "src" "conf.py")
            (rewriteConf "title = x\nversion = \x270.1\x27\nrelease = \x270.1.2\x27\nend\n")⟩)
    ∧ rewriteConf "title = x\nversion = \x270.1\x27\nrelease = \x270.1.2\x27\nend\n"
      = "title = x\nversion = \x27 VERSION\x27\nrelease = \x27 VERSION\x27\nend\n" :=
  ⟨((build_core_rewrites_conf (testEnv oracleExternFail)
      ⟨[("src/conf.py", "title = x\nversion = \x270.1\x27\nrelease = \x270.1.2\x27\nend\n")]⟩
      "title = x\nversion = \x270.1\x27\nrelease = \x270.1.2\x27\nend\n").1
      (by decide) (by decide)).1 (by decide),
   by decide⟩


/-- C9: `dump_data` with a type whose `dump_`-prefixed form is not among
the exported dump names logs the invalid-type message followed by one line
per valid type (the `dump_` prefix stripped, via Python `replace`) and
calls nothing; with a known type it makes exactly the one call
`dump_<dump_type>(filename)` and logs nothing. -/
theorem dump_data_dispatch (dumpsAll : List String) (dumpType filename : String)
    (fs : FileSys) :
    (dumpsAll.contains ("dump_" ++ dumpType) = false →
      dump_data dumpsAll dumpType filename fs
        = .ok ⟨("Invalid dump_type \"" ++ dumpType ++ "\". The valid types are:") ::
            dumpsAll.map (fun d => "\t" ++ pyReplace d "dump_" ""), [], fs⟩)
    ∧ ((∀ d ∈ dumpsAll, ∃ suf, d = "dump_" ++ suf ∧ pyReplace d "dump_" "" = suf) →
        ∀ d ∈ dumpsAll, ∃ suf, d = "dump_" ++ suf
          ∧ "\t" ++ pyReplace d "dump_" "" = "\t" ++ suf)
    ∧ (dumpsAll.contains ("dump_" ++ dumpType) = true →
      dump_data dumpsAll dumpType filename fs
        = .ok ⟨[], [.dumpCall ("dump_" ++ dumpType) filename], fs⟩) := by
  refine ⟨?_, ?_, ?_⟩
  · intro h; unfold dump_data; rw [h]; simp
  · intro hf d hd
    obtain ⟨suf, h1, h2⟩ := hf d hd
    exact ⟨suf, h1, by rw [h2]⟩
  · intro h; unfold dump_data; rw [h]; simp

/-- C9 witness: with the exported names `dump_cvars`, an unknown type
logs the message and the stripped name `cvars` and calls nothing, while
the known type `cvars` calls exactly `dump_cvars` with the filename. -/
theorem dump_data_dispatch_witness :
    (dump_data ["dump_cvars"] "bogus" "out.txt" fsEmpty
      = .ok ⟨["Invalid dump_type \"bogus\". The valid types are:", "\tcvars"], [], fsEmpty⟩)
    ∧ (∀ d ∈ (["dump_cvars"] : List String), ∃ suf, d = "dump_" ++ suf
        ∧ "\t" ++ pyReplace d "dump_" "" = "\t" ++ suf)
    ∧ (dump_data ["dump_cvars"] "cvars" "out.txt" fsEmpty
      = .ok ⟨[], [.dumpCall "dump_cvars" "out.txt"], fsEmpty⟩) :=
  ⟨(dump_data_dispatch ["dump_cvars"] "bogus" "out.txt" fsEmpty).1 (by decide),
   (dump_data_dispatch ["dump_cvars"] "bogus" "out.txt" fsEmpty).2.1
     (by intro d hd
         simp only [List.mem_singleton] at hd
         subst hd
         exact ⟨"cvars", by decide, by decide⟩),
   (dump_data_dispatch ["dump_cvars"] "cvars" "out.txt" fsEmpty).2.2 (by decide)⟩

/-- C7 counterexample: `delay_execution` with a first token the numeric
conversion rejects raises `ValueError` out of the handler and emits no
diagnostic report, contradicting the claim that every handler reports its
own argument errors instead of raising. -/
theorem delay_execution_raises_cex :
    delay_execution (fun _ => none) ["abc", "echo", "hi"] fsEmpty = .error .valueError
    ∧ ∀ r : RunResult,
        delay_execution (fun _ => none) ["abc", "echo", "hi"] fsEmpty ≠ .ok r :=
  ⟨rfl, fun r h => by simp [delay_execution] at h⟩

/-- C7 amended: `delay_execution` performs no validation of its duration
token: a first token the conversion rejects makes the `ValueError`
propagate out of the handler, an empty argument list makes `IndexError`
propagate, and in no run does the handler emit any diagnostic report
(absorption, if any, happens outside the handler at the dispatch
boundary). -/
theorem delay_execution_propagates_amended (pf : String → Option Rat)
    (args : List String) (fs : FileSys) :
    (∀ a rest, args = a :: rest → pf a = none →
      delay_execution pf args fs = .error .valueError)
    ∧ (args = [] → delay_execution pf args fs = .error .indexError)
    ∧ (∀ r, delay_execution pf args fs = .ok r → r.log = []) := by
  refine ⟨?_, ?_, ?_⟩
  · intro a rest ha hpf
    subst ha; simp [delay_execution, hpf]
  · intro ha; subst ha; rfl
  · intro r hr
    cases args with
    | nil => exact absurd hr (by simp [delay_execution])
    | cons a rest =>
      cases hpf : pf a with
      | none => rw [delay_execution, hpf] at hr; exact absurd hr (by simp)
      | some q =>
        rw [delay_execution, hpf] at hr
        cases hr with
        | refl => rfl

/-- C7 amended witness: the bad token raises, the empty argument list
raises, and a successful run logs nothing. -/
theorem delay_execution_propagates_amended_witness :
    (delay_execution (fun _ => none) ["bad"] fsEmpty = .error .valueError)
    ∧ (delay_execution (fun _ => none) ([] : List String) fsEmpty = .error .indexError)
    ∧ (⟨[], [.delay 1 ("echo hi" ++ "\n")], fsEmpty⟩ : RunResult).log = [] :=
  ⟨(delay_execution_propagates_amended (fun _ => none) ["bad"] fsEmpty).1
      "bad" [] rfl rfl,
   (delay_execution_propagates_amended (fun _ => none) [] fsEmpty).2.1 rfl,
   (delay_execution_propagates_amended (fun _ => some 1) ["1", "echo", "hi"] fsEmpty).2.2
      ⟨[], [.delay 1 ("echo hi" ++ "\n")], fsEmpty⟩ rfl⟩

/-- C10: in the credits report each name is followed by exactly
`20 - length(name)` spaces (natural subtraction, hence zero spaces once
the name reaches 20 characters) before its role text: names shorter than
20 characters put the role at the fixed column 22 and names of 20 or more
characters are concatenated directly with the role. -/
theorem print_credits_alignment (p t : String)
    (groups : List (String × List (String × String))) :
    print_credits p t groups
      = (p ++ t ++ "\n" ++ rule61 ++ "\n\n") ++ strJoin (groups.map groupBlock)
        ++ rule61 ++ "\n\n"
    ∧ (∀ g : String × List (String × String),
        groupBlock g
          = "\t" ++ g.1 ++ ":\n" ++ strJoin (g.2.map (fun pr => creditLine pr.1 pr.2)) ++ "\n")
    ∧ (∀ name role : String,
        creditLine name role
          = "\t\t" ++ name ++ (⟨List.replicate (20 - name.length) ' '⟩ : String)
            ++ role ++ "\n")
    ∧ (∀ name : String,
        (⟨List.replicate (20 - name.length) ' '⟩ : String).length = 20 - name.length)
    ∧ (∀ name : String, ∀ c ∈ List.replicate (20 - name.length) ' ', c = ' ')
    ∧ (∀ name role : String, 20 ≤ name.length →
        creditLine name role = "\t\t" ++ name ++ role ++ "\n")
    ∧ (∀ name : String, name.length < 20 →
        ("\t\t" ++ name ++ (⟨List.replicate (20 - name.length) ' '⟩ : String)).length = 22) := by
  refine ⟨?_, fun g => rfl, fun name role => rfl, fun name => ?_, ?_, ?_, ?_⟩
  · show (groups.foldl (fun m g => m ++ groupBlock g)
        (p ++ t ++ "\n" ++ rule61 ++ "\n\n")) ++ rule61 ++ "\n\n" = _
    rw [foldl_append_strJoin groupBlock groups]
  · show (List.replicate (20 - name.length) ' ').length = _
    exact List.length_replicate _ _
  · exact fun name c hc => List.eq_of_mem_replicate hc
  · intro name role h
    unfold creditLine
    rw [Nat.sub_eq_zero_of_le h]
    show "\t\t" ++ name ++ "" ++ role ++ "\n" = _
    rw [String.append_empty]
  · intro name h
    rw [String.length_append, String.length_append]
    show 2 + name.length + (List.replicate (20 - name.length) ' ').length = 22
    rw [List.length_replicate]
    omega

/-- C10 witness: a short name is padded to the fixed column and a
20-character name is concatenated with its role with no space. -/
theorem print_credits_alignment_witness :
    (creditLine "exactlytwentycharsxx" "Lead"
      = "\t\t" ++ "exactlytwentycharsxx" ++ "Lead" ++ "\n")
    ∧ ("\t\t" ++ "bob" ++ (⟨List.replicate (20 - "bob".length) ' '⟩ : String)).length = 22
    ∧ print_credits "[SP] " "Credits:" [("Team", [("bob", "Lead")])]
      = ("[SP] " ++ "Credits:" ++ "\n" ++ rule61 ++ "\n\n")
        ++ strJoin ([("Team", [("bob", "Lead")])].map groupBlock) ++ rule61 ++ "\n\n" :=
  ⟨(print_credits_alignment "[SP] " "Credits:" [("Team", [("bob", "Lead")])]).2.2.2.2.2.1
      "exactlytwentycharsxx" "Lead" (by decide),
   (print_credits_alignment "[SP] " "Credits:" [("Team", [("bob", "Lead")])]).2.2.2.2.2.2
      "bob" (by decide),
   (print_credits_alignment "[SP] " "Credits:" [("Team", [("bob", "Lead")])]).1⟩


theorem char_mem_of_getLast? {l : List Char} {c : Char} (h : l.getLast? = some c) :
    c ∈ l := by
  have hmem : c ∈ l.getLast? := by rw [h]; rfl
  obtain ⟨hne, rfl⟩ := List.mem_getLast?_eq_getLast hmem
  exact List.getLast_mem hne

theorem getLast?_str_append (a b : String) (h : b.data ≠ []) :
    (a ++ b).data.getLast? = b.data.getLast? := by
  rw [String.data_append]
  exact List.getLast?_append_of_ne_nil _ h

theorem itemCore_tail (item : String) (v : InfoValue)
    (h : (formatInfoValue v).data.getLast? ≠ some '\n') :
    (itemCore item v).data ≠ [] ∧ (itemCore item v).data.getLast? ≠ some '\n' := by
  constructor
  · show ("\t" ++ item ++ ":\n\t\t" ++ formatInfoValue v).data ≠ []
    simp [String.data_append]
  · by_cases hf : (formatInfoValue v).data = []
    · show ("\t" ++ item ++ ":\n\t\t" ++ formatInfoValue v).data.getLast? ≠ some '\n'
      rw [String.data_append, hf, List.append_nil, String.data_append,
        List.getLast?_append_of_ne_nil _ (by decide : (":\n\t\t" : String).data ≠ [])]
      decide
    · show ("\t" ++ item ++ ":\n\t\t" ++ formatInfoValue v).data.getLast? ≠ some '\n'
      rw [String.data_append, List.getLast?_append_of_ne_nil _ hf]
      exact h

theorem strJoin_itemLines_tail (info : List (String × InfoValue))
    (hne : info ≠ [])
    (h : ∀ it ∈ info, (formatInfoValue it.2).data.getLast? ≠ some '\n') :
    ∃ s : String, strJoin (info.map itemLine) = s ++ "\n"
      ∧ s.data ≠ [] ∧ s.data.getLast? ≠ some '\n' := by
  rcases List.eq_nil_or_concat info with rfl | ⟨L, b, rfl⟩
  · exact absurd rfl hne
  · rw [List.concat_eq_append] at hne h ⊢
    have hb : b ∈ L ++ [b] := by simp
    obtain ⟨hbne, hblast⟩ := itemCore_tail b.1 b.2 (h b hb)
    refine ⟨strJoin (L.map itemLine) ++ itemCore b.1 b.2, ?_, ?_, ?_⟩
    · rw [List.map_append, strJoin_append]
      show strJoin (L.map itemLine) ++ ((itemCore b.1 b.2 ++ "\n") ++ "") = _
      rw [String.append_empty, ← String.append_assoc]
    · rw [String.data_append]
      exact fun hcon => hbne (List.append_eq_nil.mp hcon).2
    · rw [getLast?_str_append _ _ hbne]
      exact hblast

theorem pluginBlock_tail (mgr : Manager) (n : String)
    (hne : n ≠ "") (hnl : '\n' ∉ n.data)
    (hinfo : ∀ q ∈ mgr, ∀ it ∈ q.2.getD [],
      (formatInfoValue it.2).data.getLast? ≠ some '\n') :
    ∃ s : String, pluginBlock mgr n = s ++ "\n"
      ∧ s.data ≠ [] ∧ s.data.getLast? ≠ some '\n' := by
  have hnd : n.data ≠ [] := fun hcon => hne (string_eq_of_data hcon)
  have hnlast : n.data.getLast? ≠ some '\n' := fun hcon => hnl (char_mem_of_getLast? hcon)
  unfold pluginBlock
  cases hf : lookupInfo mgr n with
  | none => exact ⟨n, rfl, hnd, hnlast⟩
  | some info =>
    obtain ⟨q, hq, hq2⟩ :
        ∃ q, mgr.find? (fun pr => pr.1 == n) = some q ∧ q.2 = some info := by
      unfold lookupInfo at hf
      cases hfind : mgr.find? (fun pr => pr.1 == n) with
      | none =>
        rw [hfind] at hf
        rw [Option.none_bind] at hf
        exact Option.noConfusion hf
      | some q =>
        rw [hfind] at hf
        rw [Option.some_bind] at hf
        exact ⟨q, rfl, hf⟩
    have hqmem := List.mem_of_find?_eq_some hq
    have hitems : ∀ it ∈ info, (formatInfoValue it.2).data.getLast? ≠ some '\n' := by
      have hq3 := hinfo q hqmem
      rw [hq2] at hq3
      exact hq3
    rcases Decidable.em (info = []) with rfl | hne2
    · refine ⟨n ++ ":", ?_, ?_, ?_⟩
      · show (n ++ ":\n") ++ strJoin (List.map itemLine []) = (n ++ ":") ++ "\n"
        rw [show strJoin (List.map itemLine ([] : List (String × InfoValue))) = "" from rfl,
          String.append_empty, String.append_assoc,
          show ((":" : String) ++ "\n") = ":\n" from rfl]
      · rw [String.data_append]
        exact fun hcon => (by decide : ((":" : String).data) ≠ []) (List.append_eq_nil.mp hcon).2
      · rw [getLast?_str_append _ _ (by decide : ((":" : String).data) ≠ [])]
        decide
    · obtain ⟨s', hs', hs'ne, hs'last⟩ := strJoin_itemLines_tail info hne2 hitems
      refine ⟨(n ++ ":\n") ++ s', ?_, ?_, ?_⟩
      · show (n ++ ":\n") ++ strJoin (info.map itemLine) = _
        rw [hs', ← String.append_assoc]
      · rw [String.data_append]
        exact fun hcon => hs'ne (List.append_eq_nil.mp hcon).2
      · rw [getLast?_str_append _ _ hs'ne]
        exact hs'last

/-- C8: the `list` report is one string that begins with the registry
prefix, the title line and a separator rule of exactly 61 `=` characters,
whose body is the concatenation, over the plugin names sorted
lexicographically (a permutation of the loaded names, so independent of
load order), of each plugin record followed by exactly one blank line
(each record is nonempty text ending in a single newline), and which ends
with the closing 61-character rule. -/
theorem print_plugins_report_shape (p t : String) (mgr : Manager) :
    print_plugins p t mgr
      = (p ++ t ++ "\n" ++ rule61 ++ "\n\n")
        ++ strJoin ((sortedNames mgr).map (fun n => pluginBlock mgr n ++ "\n")) ++ rule61
    ∧ rule61.length = 61
    ∧ (∀ c ∈ rule61.data, c = '=')
    ∧ List.Sorted (· ≤ ·) (sortedNames mgr)
    ∧ List.Perm (sortedNames mgr) (mgr.map Prod.fst)
    ∧ ((∀ pr ∈ mgr, (pr.1 ≠ "" ∧ '\n' ∉ pr.1.data)
          ∧ ∀ it ∈ pr.2.getD [], (formatInfoValue it.2).data.getLast? ≠ some '\n') →
        ∀ n ∈ sortedNames mgr, ∃ s : String, pluginBlock mgr n = s ++ "\n"
          ∧ s.data ≠ [] ∧ s.data.getLast? ≠ some '\n') := by
  refine ⟨?_, by decide, fun c hc => List.eq_of_mem_replicate hc,
    List.sorted_insertionSort _ _, List.perm_insertionSort _ _, ?_⟩
  · show ((sortedNames mgr).foldl (fun m n => m ++ (pluginBlock mgr n ++ "\n"))
        (p ++ t ++ "\n" ++ rule61 ++ "\n\n")) ++ rule61 = _
    rw [foldl_append_strJoin (fun n => pluginBlock mgr n ++ "\n") (sortedNames mgr)]
  · intro H n hn
    have hn' : n ∈ List.insertionSort (· ≤ ·) (mgr.map Prod.fst) := hn
    have hkey : n ∈ mgr.map Prod.fst :=
      (List.perm_insertionSort (· ≤ ·) (mgr.map Prod.fst)).mem_iff.mp hn'
    obtain ⟨pr, hpr, hpr1⟩ := List.mem_map.mp hkey
    have h1 := (H pr hpr).1
    exact pluginBlock_tail mgr n (hpr1 ▸ h1.1) (hpr1 ▸ h1.2) (fun q hq => (H q hq).2)

/-- C8 witness: for the registry {zulu, alpha, mu} loaded in that order,
the report has the framed shape with the body ordered alpha, mu, zulu and
one blank line after each record. -/
theorem print_plugins_report_shape_witness :
    (print_plugins "[SP] " "Plugins:" mgrSample
      = ("[SP] " ++ "Plugins:" ++ "\n" ++ rule61 ++ "\n\n")
        ++ strJoin ((sortedNames mgrSample).map (fun n => pluginBlock mgrSample n ++ "\n"))
        ++ rule61)
    ∧ List.Sorted (· ≤ ·) (sortedNames mgrSample)
    ∧ List.Perm (sortedNames mgrSample) (mgrSample.map Prod.fst)
    ∧ ∀ n ∈ sortedNames mgrSample, ∃ s : String, pluginBlock mgrSample n = s ++ "\n"
        ∧ s.data ≠ [] ∧ s.data.getLast? ≠ some '\n' :=
  ⟨(print_plugins_report_shape "[SP] " "Plugins:" mgrSample).1,
   (print_plugins_report_shape "[SP] " "Plugins:" mgrSample).2.2.2.1,
   (print_plugins_report_shape "[SP] " "Plugins:" mgrSample).2.2.2.2.1,
   (print_plugins_report_shape "[SP] " "Plugins:" mgrSample).2.2.2.2.2 (by decide)⟩

end SPCore
